import Mathlib

/-!
Shallow embedding of the expense CRUD handlers of `app/expense.py`.

The repository exposes five JWT-guarded routes over one `Expense` table:
create (POST), list (GET /), get (GET /id), update (PATCH /id, partial
payload) and delete (DELETE /id).  The database session and the
marshmallow schema are external collaborators: the store is embedded as
an explicit list of rows plus the id the store will assign next, and a
call to `expense_schema.load` is embedded as an `Except` value (the
field-error map on failure, the typed field set on success) passed into
the handler, exactly where the handler branches on the outcome.
Each handler returns the HTTP response together with the store it
leaves behind.
-/

/-- One row of the `Expense` table: id assigned by the store, the two
payload fields, and `user_id`, the owner reference. -/
structure Expense where
  id : Nat
  title : String
  amount : Int
  user_id : Nat
deriving Repr, DecidableEq

/-- The serialized record produced by `expense_schema.dump`: the owner
identifier is not exposed in output. -/
structure ExpenseOut where
  id : Nat
  title : String
  amount : Int
deriving Repr, DecidableEq

/-- Serialization `expense_schema.dump`. -/
def dump (e : Expense) : ExpenseOut :=
  ⟨e.id, e.title, e.amount⟩

/-- A marshmallow field-error map: field name to list of messages
(`err.messages`). -/
abbrev ErrMap := List (String × List String)

/-- The typed field set `expense_schema.load` returns on a create
payload: both fields required. -/
structure ExpenseIn where
  title : String
  amount : Int
deriving Repr, DecidableEq

/-- The typed field set `expense_schema.load` returns when optional
fields are permitted (the PATCH payload): any subset of the two fields
may be present, the handler reads them with `data.get`. -/
structure UpdateIn where
  title : Option String
  amount : Option Int
deriving Repr, DecidableEq

/-- Response body variants: a serialized record, a serialized
collection, a field-error map (validation failure, 422), an error
message object `{error: ...}` (not-owner, 401), the framework's 404
page from `get_or_404`, and the empty body of 204. -/
inductive Body where
  | record : ExpenseOut → Body
  | records : List ExpenseOut → Body
  | errMap : ErrMap → Body
  | errMsg : String → Body
  | notFound : Body
  | empty : Body
deriving Repr, DecidableEq

/-- An HTTP response: status code and body. -/
structure Response where
  status : Nat
  body : Body
deriving Repr, DecidableEq

/-- The persistence store: the `Expense` rows plus the id the store
assigns to the next inserted row. -/
structure Store where
  expenses : List Expense
  nextId : Nat
deriving Repr, DecidableEq

/-- Lookup `db.get_or_404(Expense, id)` without the abort: look the row up by
primary key. -/
def findExpense (st : Store) (id : Nat) : Option Expense :=
  st.expenses.find? (fun e => e.id == id)

/-- The not-owner message of `get_expense` (line 137). -/
def notOwnerMsgGet : String := "У вас немає доступу до ціеї витрати"

/-- The not-owner message of `update_expense` (line 194). -/
def notOwnerMsgUpdate : String := "У вас немає доступу до цієї витрати"

/-- The not-owner message of `delete_expense` (line 241). -/
def notOwnerMsgDelete : String := "У вас немає доступу до ціеї витрати"

/-- Handler `create_expense` (POST /): on validation failure return the error
map with 422; otherwise insert a new row whose `user_id` is the
caller's id, commit, and return the serialized record with 201. -/
def create_expense (st : Store) (caller : Nat)
    (loadResult : Except ErrMap ExpenseIn) : Response × Store :=
  match loadResult with
  | .error err => (⟨422, Body.errMap err⟩, st)
  | .ok data =>
      let new_expense : Expense :=
        { id := st.nextId, title := data.title, amount := data.amount,
          user_id := caller }
      (⟨201, Body.record (dump new_expense)⟩,
        { expenses := st.expenses ++ [new_expense], nextId := st.nextId + 1 })

/-- Handler `get_expenses` (GET /): serialize `current_user.expenses`, the rows
whose `user_id` is the caller's id, with 200. -/
def get_expenses (st : Store) (caller : Nat) : Response × Store :=
  (⟨200, Body.records ((st.expenses.filter (fun e => e.user_id == caller)).map dump)⟩,
    st)

/-- Handler `get_expense` (GET /id): 404 when the row does not exist, 401 with
an error message when the caller is not the owner, otherwise the
serialized record with 200. -/
def get_expense (st : Store) (caller : Nat) (id : Nat) : Response × Store :=
  match findExpense st id with
  | none => (⟨404, Body.notFound⟩, st)
  | some expense =>
      if expense.user_id ≠ caller then
        (⟨401, Body.errMsg notOwnerMsgGet⟩, st)
      else
        (⟨200, Body.record (dump expense)⟩, st)

/-- Handler `update_expense` (PATCH /id): 404 when the row does not exist, then
the ownership check (401), then validation with optional fields
permitted (422 on failure); on success each present field overwrites,
each absent field keeps its current value (`data.get(field, current)`),
the mutation is committed and the updated record returned with 200. -/
def update_expense (st : Store) (caller : Nat) (id : Nat)
    (loadResult : Except ErrMap UpdateIn) : Response × Store :=
  match findExpense st id with
  | none => (⟨404, Body.notFound⟩, st)
  | some expense =>
      if expense.user_id ≠ caller then
        (⟨401, Body.errMsg notOwnerMsgUpdate⟩, st)
      else
        match loadResult with
        | .error err => (⟨422, Body.errMap err⟩, st)
        | .ok data =>
            let e' : Expense :=
              { expense with
                  title := data.title.getD expense.title,
                  amount := data.amount.getD expense.amount }
            (⟨200, Body.record (dump e')⟩,
              { st with
                  expenses := st.expenses.map
                    (fun x => if x.id == id then e' else x) })

/-- Handler `delete_expense` (DELETE /id): 404 when the row does not exist, 401
when the caller is not the owner, otherwise remove the row, commit, and
return the empty body with 204. -/
def delete_expense (st : Store) (caller : Nat) (id : Nat) : Response × Store :=
  match findExpense st id with
  | none => (⟨404, Body.notFound⟩, st)
  | some expense =>
      if expense.user_id ≠ caller then
        (⟨401, Body.errMsg notOwnerMsgDelete⟩, st)
      else
        (⟨204, Body.empty⟩,
          { st with expenses := st.expenses.filter (fun x => x.id != id) })

/-- A concrete row and store used by the witnesses: one expense owned
by user 1, next id 2. -/
def exp1 : Expense := ⟨1, "Expense", 100, 1⟩

/-- A concrete store holding `exp1`. -/
def st1 : Store := ⟨[exp1], 2⟩

/-- Replacing the row found by id keeps it findable: after mapping the
per-row rewrite over the store, the lookup returns the new row. -/
theorem find?_map_update (l : List Expense) (id : Nat) (e e' : Expense)
    (hfind : l.find? (fun x => x.id == id) = some e) (hid : e'.id = id) :
    (l.map (fun x => if x.id == id then e' else x)).find? (fun x => x.id == id)
      = some e' := by
  induction l with
  | nil => simp at hfind
  | cons a l ih =>
    by_cases h : a.id = id
    · simp only [List.map_cons, h, beq_self_eq_true, if_true]
      exact List.find?_cons_of_pos _ (by simp [hid])
    · have hb : (a.id == id) = false := by simp [h]
      simp only [List.map_cons, hb, Bool.false_eq_true, if_false]
      rw [List.find?_cons_of_neg _ (by simp [h])]
      apply ih
      rwa [List.find?_cons_of_neg _ (by simp [h])] at hfind

/-- C1: for every id whose record exists but whose owner is not the
caller, get, update and delete each return 401 with the fixed
error-message body, which carries nothing of the record's title or
amount; and for every id with no backing record, each of the three
returns 404. -/
theorem not_owner_401_and_missing_404 (st : Store) (caller id : Nat) :
    (∀ e, findExpense st id = some e → e.user_id ≠ caller →
      ∀ lr : Except ErrMap UpdateIn,
        (get_expense st caller id).1 = ⟨401, Body.errMsg notOwnerMsgGet⟩ ∧
        (update_expense st caller id lr).1 = ⟨401, Body.errMsg notOwnerMsgUpdate⟩ ∧
        (delete_expense st caller id).1 = ⟨401, Body.errMsg notOwnerMsgDelete⟩) ∧
    (findExpense st id = none →
      ∀ lr : Except ErrMap UpdateIn,
        (get_expense st caller id).1 = ⟨404, Body.notFound⟩ ∧
        (update_expense st caller id lr).1 = ⟨404, Body.notFound⟩ ∧
        (delete_expense st caller id).1 = ⟨404, Body.notFound⟩) := by
  constructor
  · intro e hfind hne lr
    refine ⟨?_, ?_, ?_⟩ <;>
      simp [get_expense, update_expense, delete_expense, hfind, hne]
  · intro hnone lr
    refine ⟨?_, ?_, ?_⟩ <;>
      simp [get_expense, update_expense, delete_expense, hnone]

/-- Witness for C1: in `st1`, caller 2 is not the owner of id 1 and
gets 401 from all three handlers, and id 99 has no record and gets
404 from all three. -/
theorem not_owner_401_and_missing_404_witness :
    ((get_expense st1 2 1).1 = ⟨401, Body.errMsg notOwnerMsgGet⟩ ∧
      (update_expense st1 2 1 (Except.ok ⟨none, none⟩)).1 =
        ⟨401, Body.errMsg notOwnerMsgUpdate⟩ ∧
      (delete_expense st1 2 1).1 = ⟨401, Body.errMsg notOwnerMsgDelete⟩) ∧
    ((get_expense st1 2 99).1 = ⟨404, Body.notFound⟩ ∧
      (update_expense st1 2 99 (Except.ok ⟨none, none⟩)).1 = ⟨404, Body.notFound⟩ ∧
      (delete_expense st1 2 99).1 = ⟨404, Body.notFound⟩) :=
  ⟨(not_owner_401_and_missing_404 st1 2 1).1 exp1 rfl (by decide)
      (Except.ok ⟨none, none⟩),
    (not_owner_401_and_missing_404 st1 2 99).2 rfl (Except.ok ⟨none, none⟩)⟩

/-- C6: when validation fails with error map m, create returns the
field-level error map with 422; and update on an existing record owned
by the caller likewise returns the error map with 422 when its
(optional-fields) validation fails. -/
theorem validation_failure_422 (st : Store) (caller id : Nat) (e : Expense)
    (m : ErrMap)
    (hfind : findExpense st id = some e) (howner : e.user_id = caller) :
    (create_expense st caller (Except.error m)).1 = ⟨422, Body.errMap m⟩ ∧
    (update_expense st caller id (Except.error m)).1 = ⟨422, Body.errMap m⟩ := by
  refine ⟨rfl, ?_⟩
  simp [update_expense, hfind, howner]

/-- Witness for C6 at `st1`: user 1 owns record 1; a failed load yields
422 with the error map from both create and update. -/
theorem validation_failure_422_witness :
    (create_expense st1 1
        (Except.error [("amount", ["Not a valid number."])])).1 =
      ⟨422, Body.errMap [("amount", ["Not a valid number."])]⟩ ∧
    (update_expense st1 1 1
        (Except.error [("amount", ["Not a valid number."])])).1 =
      ⟨422, Body.errMap [("amount", ["Not a valid number."])]⟩ :=
  validation_failure_422 st1 1 1 exp1 [("amount", ["Not a valid number."])] rfl rfl

/-- C9: the ownership check of update runs before payload validation:
on an existing record not owned by the caller, update returns the 401
not-owner response whatever the load outcome is, so it is never the
422 validation response. -/
theorem update_ownership_before_validation (st : Store) (caller id : Nat)
    (e : Expense) (hfind : findExpense st id = some e)
    (hne : e.user_id ≠ caller) (lr : Except ErrMap UpdateIn) :
    (update_expense st caller id lr).1 = ⟨401, Body.errMsg notOwnerMsgUpdate⟩ ∧
    (update_expense st caller id lr).1.status ≠ 422 := by
  have h1 : (update_expense st caller id lr).1 =
      ⟨401, Body.errMsg notOwnerMsgUpdate⟩ := by
    simp [update_expense, hfind, hne]
  exact ⟨h1, by rw [h1]; decide⟩

/-- Witness for C9: caller 2 sends a malformed payload against record 1
of `st1` (owned by user 1) and receives 401, not 422. -/
theorem update_ownership_before_validation_witness :
    (update_expense st1 2 1
        (Except.error [("amount", ["Not a valid number."])])).1 =
      ⟨401, Body.errMsg notOwnerMsgUpdate⟩ ∧
    (update_expense st1 2 1
        (Except.error [("amount", ["Not a valid number."])])).1.status ≠ 422 :=
  update_ownership_before_validation st1 2 1 exp1 rfl (by decide)
    (Except.error [("amount", ["Not a valid number."])])

/-- C2: when the payload loads successfully, create inserts exactly one
new row whose `user_id` is the caller's id and answers 201 with the
serialized record; a subsequent get by the same caller on the freshly
assigned id answers 200 with a record carrying the payload's title and
amount.  The hypothesis states the store invariant that the next id is
fresh. -/
theorem create_then_get_roundtrip (st : Store) (caller : Nat) (data : ExpenseIn)
    (hfresh : ∀ e ∈ st.expenses, e.id ≠ st.nextId) :
    (create_expense st caller (Except.ok data)).1 =
      ⟨201, Body.record ⟨st.nextId, data.title, data.amount⟩⟩ ∧
    (create_expense st caller (Except.ok data)).2.expenses =
      st.expenses ++ [⟨st.nextId, data.title, data.amount, caller⟩] ∧
    (get_expense (create_expense st caller (Except.ok data)).2 caller st.nextId).1 =
      ⟨200, Body.record ⟨st.nextId, data.title, data.amount⟩⟩ := by
  refine ⟨rfl, rfl, ?_⟩
  have hnone : st.expenses.find? (fun e => e.id == st.nextId) = none := by
    rw [List.find?_eq_none]
    intro x hx
    simpa using hfresh x hx
  have hfind : findExpense (create_expense st caller (Except.ok data)).2 st.nextId
      = some ⟨st.nextId, data.title, data.amount, caller⟩ := by
    simp [findExpense, create_expense, List.find?_append, hnone]
  simp [get_expense, hfind, dump]

/-- Witness for C2: creating title "Lunch", amount 50 in `st1` as user 1
and fetching the fresh id 2 round-trips the payload. -/
theorem create_then_get_roundtrip_witness :
    (create_expense st1 1 (Except.ok ⟨"Lunch", 50⟩)).1 =
      ⟨201, Body.record ⟨st1.nextId, "Lunch", 50⟩⟩ ∧
    (create_expense st1 1 (Except.ok ⟨"Lunch", 50⟩)).2.expenses =
      st1.expenses ++ [⟨st1.nextId, "Lunch", 50, 1⟩] ∧
    (get_expense (create_expense st1 1 (Except.ok ⟨"Lunch", 50⟩)).2 1 st1.nextId).1 =
      ⟨200, Body.record ⟨st1.nextId, "Lunch", 50⟩⟩ :=
  create_then_get_roundtrip st1 1 ⟨"Lunch", 50⟩ (by decide)

/-- C3: list answers 200 without touching the store, and its body is the
collection of exactly the serialized records whose owner is the caller;
when the caller owns none the collection is empty, never an error. -/
theorem list_exactly_owned (st : Store) (caller : Nat) :
    (get_expenses st caller).1.status = 200 ∧
    (get_expenses st caller).2 = st ∧
    ∃ l, (get_expenses st caller).1.body = Body.records l ∧
      (∀ r, r ∈ l ↔ ∃ e, e ∈ st.expenses ∧ e.user_id = caller ∧ dump e = r) ∧
      ((∀ e ∈ st.expenses, e.user_id ≠ caller) → l = []) := by
  refine ⟨rfl, rfl, _, rfl, ?_, ?_⟩
  · intro r
    simp [List.mem_map, List.mem_filter, and_assoc]
  · intro h
    have hnil : st.expenses.filter (fun e => e.user_id == caller) = [] := by
      rw [List.filter_eq_nil_iff]
      intro a ha
      simpa using h a ha
    simp [hnil]

/-- Witness for C3: in `st1`, caller 1 receives 200 and the store is
untouched; caller 2 owns nothing and receives the empty collection. -/
theorem list_exactly_owned_witness :
    ((get_expenses st1 1).1.status = 200 ∧ (get_expenses st1 1).2 = st1) ∧
    (get_expenses st1 2).1.body = Body.records [] := by
  refine ⟨⟨(list_exactly_owned st1 1).1, (list_exactly_owned st1 1).2.1⟩, ?_⟩
  obtain ⟨l, hbody, -, hempty⟩ := (list_exactly_owned st1 2).2.2
  rw [hbody, hempty (by decide)]

/-- C4: on a record owned by the caller, update with only a title
overwrites the title, keeps the amount, commits the mutated row and
answers 200 with it; update with only an amount does the symmetric
thing. -/
theorem update_overwrites_present_keeps_absent (st : Store) (caller id : Nat)
    (e : Expense) (hfind : findExpense st id = some e)
    (howner : e.user_id = caller) (X : String) (Y : Int) :
    ((update_expense st caller id (Except.ok ⟨some X, none⟩)).1 =
        ⟨200, Body.record ⟨e.id, X, e.amount⟩⟩ ∧
      findExpense (update_expense st caller id (Except.ok ⟨some X, none⟩)).2 id =
        some { e with title := X }) ∧
    ((update_expense st caller id (Except.ok ⟨none, some Y⟩)).1 =
        ⟨200, Body.record ⟨e.id, e.title, Y⟩⟩ ∧
      findExpense (update_expense st caller id (Except.ok ⟨none, some Y⟩)).2 id =
        some { e with amount := Y }) := by
  have hfind' : st.expenses.find? (fun x => x.id == id) = some e := hfind
  have hid : e.id = id := by simpa using List.find?_some hfind'
  refine ⟨⟨?_, ?_⟩, ⟨?_, ?_⟩⟩
  · simp [update_expense, hfind, howner, dump]
  · have hst : (update_expense st caller id (Except.ok ⟨some X, none⟩)).2.expenses =
        st.expenses.map (fun x => if x.id == id then { e with title := X } else x) := by
      simp [update_expense, hfind, howner]
    show ((update_expense st caller id (Except.ok ⟨some X, none⟩)).2.expenses).find?
        (fun x => x.id == id) = some { e with title := X }
    rw [hst]
    exact find?_map_update st.expenses id e _ hfind' (by simp [hid])
  · simp [update_expense, hfind, howner, dump]
  · have hst : (update_expense st caller id (Except.ok ⟨none, some Y⟩)).2.expenses =
        st.expenses.map (fun x => if x.id == id then { e with amount := Y } else x) := by
      simp [update_expense, hfind, howner]
    show ((update_expense st caller id (Except.ok ⟨none, some Y⟩)).2.expenses).find?
        (fun x => x.id == id) = some { e with amount := Y }
    rw [hst]
    exact find?_map_update st.expenses id e _ hfind' (by simp [hid])

/-- Witness for C4 at `st1`: updating record 1 of owner 1 with only a
new title keeps amount 100, and with only a new amount keeps the
title. -/
theorem update_overwrites_present_keeps_absent_witness :
    ((update_expense st1 1 1 (Except.ok ⟨some "Updated Expense", none⟩)).1 =
        ⟨200, Body.record ⟨exp1.id, "Updated Expense", exp1.amount⟩⟩ ∧
      findExpense
          (update_expense st1 1 1 (Except.ok ⟨some "Updated Expense", none⟩)).2 1 =
        some { exp1 with title := "Updated Expense" }) ∧
    ((update_expense st1 1 1 (Except.ok ⟨none, some 7⟩)).1 =
        ⟨200, Body.record ⟨exp1.id, exp1.title, 7⟩⟩ ∧
      findExpense (update_expense st1 1 1 (Except.ok ⟨none, some 7⟩)).2 1 =
        some { exp1 with amount := 7 }) :=
  update_overwrites_present_keeps_absent st1 1 1 exp1 rfl rfl "Updated Expense" 7

/-- C5: on a record owned by the caller, delete answers 204 with the
empty body and removes the record from the committed store; afterwards
the lookup finds nothing, so both a repeated delete and a get on the
same id answer 404. -/
theorem delete_removes_then_404 (st : Store) (caller id : Nat) (e : Expense)
    (hfind : findExpense st id = some e) (howner : e.user_id = caller) :
    (delete_expense st caller id).1 = ⟨204, Body.empty⟩ ∧
    findExpense (delete_expense st caller id).2 id = none ∧
    (get_expense (delete_expense st caller id).2 caller id).1 =
      ⟨404, Body.notFound⟩ ∧
    (delete_expense (delete_expense st caller id).2 caller id).1 =
      ⟨404, Body.notFound⟩ := by
  have hnone : findExpense (delete_expense st caller id).2 id = none := by
    have hst : (delete_expense st caller id).2.expenses =
        st.expenses.filter (fun x => x.id != id) := by
      simp [delete_expense, hfind, howner]
    show ((delete_expense st caller id).2.expenses).find? (fun x => x.id == id)
        = none
    rw [hst, List.find?_eq_none]
    intro x hx
    have hmem := (List.mem_filter.mp hx).2
    simp at hmem ⊢
    exact hmem
  have hDel : ∀ st' : Store, findExpense st' id = none →
      (delete_expense st' caller id).1 = ⟨404, Body.notFound⟩ :=
    fun st' h => by simp [delete_expense, h]
  refine ⟨by simp [delete_expense, hfind, howner], hnone, ?_, hDel _ hnone⟩
  simp [get_expense, hnone]

/-- Witness for C5: user 1 deletes their record 1 in `st1`; the repeat
delete and the subsequent get answer 404. -/
theorem delete_removes_then_404_witness :
    (delete_expense st1 1 1).1 = ⟨204, Body.empty⟩ ∧
    findExpense (delete_expense st1 1 1).2 1 = none ∧
    (get_expense (delete_expense st1 1 1).2 1 1).1 = ⟨404, Body.notFound⟩ ∧
    (delete_expense (delete_expense st1 1 1).2 1 1).1 = ⟨404, Body.notFound⟩ :=
  delete_removes_then_404 st1 1 1 exp1 rfl rfl

/-- C7: a failing request leaves the store exactly as it was: create
leaves the store unchanged whenever it does not answer 201, list and
get never change the store, and update and delete leave it unchanged
whenever they do not answer their success status, because each handler
commits only after validation and ownership checks have passed. -/
theorem failed_request_leaves_store (st : Store) (caller id : Nat)
    (lr : Except ErrMap ExpenseIn) (lrU : Except ErrMap UpdateIn) :
    ((create_expense st caller lr).1.status ≠ 201 →
      (create_expense st caller lr).2 = st) ∧
    (get_expenses st caller).2 = st ∧
    (get_expense st caller id).2 = st ∧
    ((update_expense st caller id lrU).1.status ≠ 200 →
      (update_expense st caller id lrU).2 = st) ∧
    ((delete_expense st caller id).1.status ≠ 204 →
      (delete_expense st caller id).2 = st) := by
  refine ⟨?_, rfl, ?_, ?_, ?_⟩
  · cases lr with
    | error m => intro _; rfl
    | ok d => intro h; exact absurd rfl h
  · rcases hf : findExpense st id with _ | e
    · simp [get_expense, hf]
    · by_cases h : e.user_id ≠ caller <;> simp [get_expense, hf, h]
  · rcases hf : findExpense st id with _ | e
    · intro _; simp [update_expense, hf]
    · by_cases h : e.user_id ≠ caller
      · intro _; simp [update_expense, hf, h]
      · cases lrU with
        | error m => intro _; simp [update_expense, hf, h]
        | ok d => intro hs; exact absurd (by simp [update_expense, hf, h]) hs
  · rcases hf : findExpense st id with _ | e
    · intro _; simp [delete_expense, hf]
    · by_cases h : e.user_id ≠ caller
      · intro _; simp [delete_expense, hf, h]
      · intro hs; exact absurd (by simp [delete_expense, hf, h]) hs

/-- Witness for C7 at `st1`: a 422 create, a 422 update and a 401
delete (caller 2 is not the owner) all leave the store unchanged. -/
theorem failed_request_leaves_store_witness :
    (create_expense st1 1
        (Except.error [("title", ["Missing data for required field."])])).2 = st1 ∧
    (update_expense st1 1 1
        (Except.error [("title", ["Missing data for required field."])])).2 = st1 ∧
    (delete_expense st1 2 1).2 = st1 :=
  ⟨(failed_request_leaves_store st1 1 1
      (Except.error [("title", ["Missing data for required field."])])
      (Except.error [("title", ["Missing data for required field."])])).1
      (by decide),
    (failed_request_leaves_store st1 1 1
      (Except.error [("title", ["Missing data for required field."])])
      (Except.error [("title", ["Missing data for required field."])])).2.2.2.1
      (by decide),
    (failed_request_leaves_store st1 2 1
      (Except.error [("title", ["Missing data for required field."])])
      (Except.error [("title", ["Missing data for required field."])])).2.2.2.2
      (by decide)⟩

/-- C8: `user_id` is set exactly once, at creation, to the creating
caller's id, and no operation mutates it afterwards: every row after a
create is an old row or carries the caller as owner, update preserves
every row's id and owner (it writes only title and amount), and delete
only removes rows.  The hypothesis is the store invariant that row ids
are unique. -/
theorem owner_id_set_once_never_mutated (st : Store) (caller id : Nat)
    (data : ExpenseIn) (lr : Except ErrMap UpdateIn)
    (hnodup : (st.expenses.map Expense.id).Nodup) :
    (∀ e' ∈ (create_expense st caller (Except.ok data)).2.expenses,
        e' ∈ st.expenses ∨ e'.user_id = caller) ∧
    (update_expense st caller id lr).2.expenses.map (fun e => (e.id, e.user_id)) =
      st.expenses.map (fun e => (e.id, e.user_id)) ∧
    (∀ e' ∈ (delete_expense st caller id).2.expenses, e' ∈ st.expenses) := by
  refine ⟨?_, ?_, ?_⟩
  · intro e' he'
    rcases List.mem_append.mp he' with h | h
    · exact Or.inl h
    · right
      rw [List.mem_singleton.mp h]
  · rcases hf : findExpense st id with _ | expense
    · simp [update_expense, hf]
    · by_cases hown : expense.user_id ≠ caller
      · simp [update_expense, hf, hown]
      · cases lr with
        | error m => simp [update_expense, hf, hown]
        | ok d =>
          have hmem : expense ∈ st.expenses := List.mem_of_find?_eq_some hf
          have hkey : expense.id = id := by simpa using List.find?_some hf
          have hst : (update_expense st caller id (Except.ok d)).2.expenses =
              st.expenses.map (fun x => if x.id == id then
                { expense with title := d.title.getD expense.title,
                               amount := d.amount.getD expense.amount } else x) := by
            simp [update_expense, hf, hown]
          rw [hst, List.map_map]
          apply List.map_congr_left
          intro x hx
          by_cases hxid : x.id = id
          · have hxe : x = expense :=
              List.inj_on_of_nodup_map hnodup hx hmem (by rw [hxid, hkey])
            simp [Function.comp, hxid, hxe, hkey]
          · simp [Function.comp, hxid]
  · rcases hf : findExpense st id with _ | expense
    · simp [delete_expense, hf]
    · by_cases hown : expense.user_id ≠ caller
      · simp [delete_expense, hf, hown]
      · intro e' he'
        have hmem : e' ∈ st.expenses.filter (fun x => x.id != id) := by
          simpa [delete_expense, hf, hown] using he'
        exact (List.mem_filter.mp hmem).1

/-- Witness for C8 at `st1`: an update of record 1 preserves every
row's id and owner pair. -/
theorem owner_id_set_once_never_mutated_witness :
    (update_expense st1 1 1 (Except.ok ⟨some "Updated Expense", none⟩)).2.expenses.map
        (fun e => (e.id, e.user_id)) =
      st1.expenses.map (fun e => (e.id, e.user_id)) :=
  (owner_id_set_once_never_mutated st1 1 1 ⟨"Lunch", 50⟩
    (Except.ok ⟨some "Updated Expense", none⟩) (by decide)).2.1

/-- C10: update with the empty payload on a record owned by the caller
answers 200 with the unchanged record, and the record in the store
keeps both its title and its amount: the empty update is an identity
on the record. -/
theorem empty_update_is_identity (st : Store) (caller id : Nat) (e : Expense)
    (hfind : findExpense st id = some e) (howner : e.user_id = caller) :
    (update_expense st caller id (Except.ok ⟨none, none⟩)).1 =
      ⟨200, Body.record (dump e)⟩ ∧
    findExpense (update_expense st caller id (Except.ok ⟨none, none⟩)).2 id =
      some e := by
  obtain ⟨eid, etitle, eamount, euid⟩ := e
  have hc : euid = caller := howner
  subst hc
  have hfind' : st.expenses.find? (fun x => x.id == id) =
      some ⟨eid, etitle, eamount, euid⟩ := hfind
  have hid : eid = id := by simpa using List.find?_some hfind'
  constructor
  · simp [update_expense, hfind, dump]
  · have hst : (update_expense st euid id (Except.ok ⟨none, none⟩)).2.expenses =
        st.expenses.map
          (fun x => if x.id == id then ⟨eid, etitle, eamount, euid⟩ else x) := by
      simp [update_expense, hfind]
    show ((update_expense st euid id (Except.ok ⟨none, none⟩)).2.expenses).find?
        (fun x => x.id == id) = some ⟨eid, etitle, eamount, euid⟩
    rw [hst]
    exact find?_map_update st.expenses id _ _ hfind' hid

/-- Witness for C10: the empty update on record 1 of `st1` answers 200
and leaves title "Expense" and amount 100 in place. -/
theorem empty_update_is_identity_witness :
    (update_expense st1 1 1 (Except.ok ⟨none, none⟩)).1 =
      ⟨200, Body.record (dump exp1)⟩ ∧
    findExpense (update_expense st1 1 1 (Except.ok ⟨none, none⟩)).2 1 =
      some exp1 :=
  empty_update_is_identity st1 1 1 exp1 rfl rfl
